import Mathlib

/-!
# giphy client (v1/giphy.go): pagination engine, canceler, single-item fetch

A shallow embedding of `v1/giphy.go`.

* Go `uint64` values are `Nat` with explicit reduction modulo `2 ^ 64` at each
  arithmetic operation; `int64` / `time.Duration` values are `Int` with an
  explicit two's complement wrap.
* A Go `error` is `Option GoError` (`none` is `nil`); a pointer is an `Option`
  (`none` is `nil`); a `nil` slice is the empty list and a `nil` map is `none`.
* Functions of other packages (`otils.ToURLValues`, `url.Values.Encode`,
  `http.NewRequest`, `json.Unmarshal`) are parameters collected in `Lib`.
* The background goroutine of `fetch` is the fuel-indexed function `producer`:
  its result is the sequence of pages sent on the channel, the wire
  parameters built for each attempt, and whether the channel has been closed.
-/

namespace Giphy

/-! ## Data model -/

/-- A non-nil Go `error` value, identified by its message. -/
structure GoError where
  msg : String
deriving DecidableEq

/-- A Go `[]byte`; the nil slice is the empty string. -/
abbrev Bytes := String

/-- The modulus of `uint64` arithmetic. -/
def u64 : Nat := 2 ^ 64

/-- The constant `baseURL`. -/
def baseURL : String := "https://api.giphy.com/v1"

/-- The constant `NoThrottle = int64(-1)`. -/
def NoThrottle : Int := -1

/-- The struct `Request`; `MaxPageNumber` and `LimitPerPage` are `uint64`,
`ThrottleDurationMs` is `int64`. -/
structure Request where
  Query : String := ""
  Rating : String := ""
  Format : String := ""
  MaxPageNumber : Nat := 0
  LimitPerPage : Nat := 0
  Language : String := ""
  SortBy : String := ""
  Tag : String := ""
  ThrottleDurationMs : Int := 0
deriving DecidableEq

/-- The struct `GIF`. -/
structure GIF where
  Type_ : String := ""
  ID : String := ""
  URL : String := ""
  Width : Int := 0
  Height : Int := 0
  Size : Int := 0
  MP4 : String := ""
  MP4Size : Int := 0
  Webp : String := ""
  WebpSize : Int := 0
deriving DecidableEq

/-- The type `GiphyTime` (a `time.Time`), reduced to an instant in nanoseconds. -/
structure GiphyTime where
  unixNano : Int := 0
deriving DecidableEq

/-- The struct `Giph`. Pointer fields are options, the map `Sizes` is `none`
when nil and an association list otherwise. -/
structure Giph where
  Type_ : String := ""
  ID : String := ""
  Slug : String := ""
  BitlyURL : String := ""
  BitlyGIFURL : String := ""
  EmbedURL : String := ""
  Owner : String := ""
  Source : String := ""
  Rating : String := ""
  Caption : String := ""
  ContentURL : String := ""
  SourceTopLevelDomain : String := ""
  SourcePostURL : String := ""
  ImportDate : Option GiphyTime := none
  TrendingDate : Option GiphyTime := none
  Sizes : Option (List (String × Option GIF)) := none
  ImageOriginalURL : String := ""
  ImageURL : String := ""
  FrameCount : Nat := 0
  ImageWidth : Int := 0
  ImageHeight : Int := 0
  FixedHeightDownsampledURL : String := ""
  FixedHeightDownsampledHeight : Int := 0
  FixedHeightDownsampledWidth : Int := 0
  FixedHeightSmallURL : String := ""
  FixedHeightSmallHeight : Int := 0
  FixedHeightSmallWidth : Int := 0
  FixedHeightSmallStillURL : String := ""
  FixedHeightSmallStillHeight : Int := 0
  FixedHeightSmallStillWidth : Int := 0
  FixedWidthDownsampledURL : String := ""
  FixedWidthDownsampledHeight : Int := 0
  FixedWidthDownsampledWidth : Int := 0
  FixedWidthSmallURL : String := ""
  FixedWidthSmallHeight : Int := 0
  FixedWidthSmallWidth : Int := 0
  FixedWidthSmallStillURL : String := ""
  FixedWidthSmallStillHeight : Int := 0
  FixedWidthSmallStillWidth : Int := 0
deriving DecidableEq

/-- The struct `Pagination` (all fields `uint64`). -/
structure Pagination where
  TotalCount : Nat := 0
  Offset : Nat := 0
  Count : Nat := 0
deriving DecidableEq

/-- The struct `Response`: `Giphs` is a `[]*Giph`, `Pagination` a pointer. -/
structure Response where
  Giphs : List (Option Giph) := []
  Pagination : Option Pagination := none
  Meta : Option (List (String × String)) := none
deriving DecidableEq

/-- The struct `Page`. -/
structure Page where
  Giphs : List (Option Giph) := []
  Err : Option GoError := none
  PageNumber : Nat := 0
deriving DecidableEq

/-- The struct `pager`: the wire parameters of one request. -/
structure pager where
  Query : String := ""
  Limit : Nat := 0
  Rating : String := ""
  Format : String := ""
  Offset : Nat := 0
  Language : String := ""
  SortBy : String := ""
  Tag : String := ""
deriving DecidableEq

/-- The struct `giphWrap`: `Giph` is a `*Giph`. -/
structure giphWrap where
  Giph : Option Giph := none
deriving DecidableEq

/-- The variable `errAlreadyClosed`. -/
def errAlreadyClosed : GoError := ⟨"already closed"⟩

/-- The variable `errEmptyResponse`. -/
def errEmptyResponse : GoError := ⟨"could not parse the response from the server"⟩

/-- The variable `blankGiph`: the zero value of `Giph`. -/
def blankGiph : Giph := {}

/-! ## Collaborators outside the package -/

/-- A `url.Values` (`map[string][]string`): the values stored under each key. -/
abbrev Values := String → Option (List String)

/-- The method `url.Values.Set`: the key now holds exactly the one value. -/
def Values.Set (qv : Values) (key value : String) : Values :=
  fun k => if k = key then some [value] else qv k

/-- An `http.Request` as built by `http.NewRequest(method, url, nil)`. -/
structure HTTPRequest where
  Method : String
  URL : String
deriving DecidableEq

/-- An `http.Response` as `http.Client.Do` returns it with a nil error (its
`Body` is then never nil). `Body` is what `ioutil.ReadAll(res.Body)` yields:
the bytes read and the read error, if any. -/
structure HTTPResponse where
  Status : String
  StatusCode : Int
  Header : List (String × List String) := []
  Body : Bytes × Option GoError := ("", none)
deriving DecidableEq

/-- Functions of other packages that the client calls. -/
structure Lib where
  /-- The function `otils.ToURLValues`, applied to a `*pager`. -/
  ToURLValues : pager → Except GoError Values
  /-- The method `url.Values.Encode`. -/
  Encode : Values → String
  /-- The function `http.NewRequest(method, url, nil)`. -/
  NewRequest : String → String → Except GoError HTTPRequest
  /-- The function `json.Unmarshal` into a `*Response`. -/
  UnmarshalResponse : Bytes → Except GoError Response
  /-- The function `json.Unmarshal` into a `*giphWrap`. -/
  UnmarshalGiphWrap : Bytes → Except GoError giphWrap

/-- Modelled from the spec: `otils.StatusOK`, of the package
`github.com/orijtech/otils`, which is not part of the sources; the status
codes it accepts are the 2xx codes. -/
def StatusOK (code : Int) : Bool := decide (200 ≤ code ∧ code ≤ 299)

/-- The struct `Client` as its methods observe it. The round tripper may be
stateful and both fields may be replaced by `SetHTTPRoundTripper` and
`SetAPIKey` while a stream runs, so each is indexed by the number of the
request being made. -/
structure Client where
  /-- What `c.httpClient().Do(req)` returns for the request numbered `n`. -/
  rt : Nat → HTTPRequest → Except GoError HTTPResponse
  /-- What `c._apiKey()` returns while the request numbered `n` is built. -/
  apiKey : Nat → String

/-- The result of a Go function that may panic instead of returning. -/
inductive Outcome (α : Type) where
  | ret : α → Outcome α
  | panics : String → Outcome α

/-! ## The canceler -/

/-- The state shared by the two results of `makeCanceler`: whether
`closeOnce` has fired and whether the channel `ch` is closed. -/
structure Canceler where
  onceDone : Bool
  chClosed : Bool
deriving DecidableEq

/-- The function `makeCanceler`: a fresh open channel and an unfired once. -/
def makeCanceler : Canceler := ⟨false, false⟩

/-- The closure `closeFn` of `makeCanceler`: one invocation on the shared
state, giving the returned error and the state afterwards. -/
def closeFn (s : Canceler) : Option GoError × Canceler :=
  if s.onceDone then (some errAlreadyClosed, s)
  else (none, { onceDone := true, chClosed := true })

/-- The errors returned by `n` successive invocations of `closeFn`, and the
state after the last one. -/
def cancelCalls : Nat → Canceler → List (Option GoError) × Canceler
  | 0, s => ([], s)
  | n + 1, s =>
    let r := closeFn s
    let rest := cancelCalls n r.2
    (r.1 :: rest.1, rest.2)

/-! ## One HTTP round trip -/

/-- The method `Client.doHTTPReq`, for the request numbered `n`: the body
bytes, the header and the error. -/
def doHTTPReq (c : Client) (n : Nat) (req : HTTPRequest) :
    Bytes × List (String × List String) × Option GoError :=
  match c.rt n req with
  | .error err => ("", [], some err)
  | .ok res =>
    if !StatusOK res.StatusCode then ("", res.Header, some ⟨res.Status⟩)
    else (res.Body.1, res.Header, res.Body.2)

/-! ## Single-item fetches -/

/-- The method `Client.fetchGIF`, for the request numbered `n`. -/
def fetchGIF (L : Lib) (c : Client) (n : Nat) (theURL : String) :
    Outcome (Option Giph × Option GoError) :=
  match L.NewRequest "GET" theURL with
  | .error err => .ret (none, some err)
  | .ok httpReq =>
    match doHTTPReq c n httpReq with
    | (_, _, some err) => .ret (none, some err)
    | (slurp, _, none) =>
      match L.UnmarshalGiphWrap slurp with
      | .error err => .ret (none, some err)
      | .ok gWrap =>
        match gWrap.Giph with
        | none => .panics "invalid memory address or nil pointer dereference"
        | some g =>
          if g = blankGiph then .ret (none, some errEmptyResponse)
          else .ret (some g, none)

/-- The URL that `Client.GIFByID` requests. -/
def gifByIDURL (L : Lib) (c : Client) (n : Nat) (id : String) : String :=
  let qv : Values := Values.Set (fun _ => none) "api_key" (c.apiKey n)
  baseURL ++ "/gifs/" ++ id ++ "?" ++ L.Encode qv

/-- The method `Client.GIFByID`. -/
def GIFByID (L : Lib) (c : Client) (n : Nat) (id : String) :
    Outcome (Option Giph × Option GoError) :=
  fetchGIF L c n (gifByIDURL L c n id)

/-- The wire parameters that `Client.randomGIF` builds. -/
def randomPager (req : Request) : pager :=
  { Rating := req.Rating, Format := req.Format, Tag := req.Tag }

/-- The URL that `Client.randomGIF` requests (an error when
`otils.ToURLValues` fails); a nil request is replaced by `new(Request)`. -/
def randomGIFURL (L : Lib) (c : Client) (n : Nat) (req : Option Request)
    (route : String) : Except GoError String :=
  let req := match req with
    | none => ({} : Request)
    | some r => r
  match L.ToURLValues (randomPager req) with
  | .error err => .error err
  | .ok qv =>
    let qv := qv.Set "api_key" (c.apiKey n)
    .ok (baseURL ++ route ++ "?" ++ L.Encode qv)

/-- The method `Client.randomGIF`. -/
def randomGIF (L : Lib) (c : Client) (n : Nat) (req : Option Request)
    (route : String) : Outcome (Option Giph × Option GoError) :=
  match randomGIFURL L c n req route with
  | .error err => .ret (none, some err)
  | .ok theURL => fetchGIF L c n theURL

/-- The method `Client.RandomSticker`. -/
def RandomSticker (L : Lib) (c : Client) (n : Nat) (req : Option Request) :
    Outcome (Option Giph × Option GoError) :=
  randomGIF L c n req "/stickers/random"

/-- The method `Client.RandomGIF`. -/
def RandomGIF (L : Lib) (c : Client) (n : Nat) (req : Option Request) :
    Outcome (Option Giph × Option GoError) :=
  randomGIF L c n req "/gifs/random"

/-! ## The pagination engine -/

/-- The closure `pageExceeds` of `fetch`, with `maxPage` made explicit. -/
def pageExceeds (maxPage page : Nat) : Bool :=
  if maxPage ≤ 0 then false else decide (page ≥ maxPage)

/-- The constant `time.Millisecond`, in nanoseconds. -/
def Millisecond : Int := 1000000

/-- The value an `int64` holds after an arithmetic result `x`: two's
complement reduction into `[-2 ^ 63, 2 ^ 63)`. -/
def wrapInt64 (x : Int) : Int := (x + 2 ^ 63) % 2 ^ 64 - 2 ^ 63

/-- The variable `throttleDuration` of `fetch`, a `time.Duration` in
nanoseconds. -/
def throttleDuration (req : Request) : Int :=
  if req.ThrottleDurationMs = NoThrottle then 0
  else if req.ThrottleDurationMs > 0 then wrapInt64 (req.ThrottleDurationMs * Millisecond)
  else 150 * Millisecond

/-- The wire parameters `fetch` builds at the top of each iteration. -/
def fetchPager (req : Request) (offset : Nat) : pager :=
  { Limit := req.LimitPerPage
    Rating := req.Rating
    Format := req.Format
    Offset := offset
    Query := req.Query
    SortBy := req.SortBy
    Language := req.Language }

/-- One page attempt of `fetch`, from `otils.ToURLValues` to
`json.Unmarshal`: the decoded response, or the error that ends the stream.
`n` is the number of the attempt. -/
def fetchPage (L : Lib) (c : Client) (route : String) (n : Nat) (p : pager) :
    Except GoError Response :=
  match L.ToURLValues p with
  | .error err => .error err
  | .ok qv =>
    let qv := qv.Set "api_key" (c.apiKey n)
    let theURL := baseURL ++ route ++ "?" ++ L.Encode qv
    match L.NewRequest "GET" theURL with
    | .error err => .error err
    | .ok httpReq =>
      match doHTTPReq c n httpReq with
      | (_, _, some err) => .error err
      | (slurp, _, none) => L.UnmarshalResponse slurp

/-- The update of `offset` at the end of an iteration: advanced by
`res.Pagination.Count` when `res.Pagination` is not nil. -/
def nextOffset (offset : Nat) (res : Response) : Nat :=
  match res.Pagination with
  | some pg => (offset + pg.Count) % u64
  | none => offset

/-- The variables of the producer loop, with the count of attempts made. -/
structure LoopState where
  attempt : Nat := 0
  pageNumber : Nat := 0
  offset : Nat := 0
deriving DecidableEq

/-- What a consumer that drains the channel observes of a stream, and what the
transport observes: the pages sent in order, the wire parameters of each
attempt in order, and whether the channel has been closed. -/
structure Stream where
  pages : List Page
  pagers : List pager
  closed : Bool

/-- The goroutine of `fetch`, run for at most `fuel` iterations of its loop.
`cancelSeen n d` tells whether the `select` after page attempt `n` receives
from `cancelChan` rather than from `time.After(d)`. -/
def producer (L : Lib) (c : Client) (cancelSeen : Nat → Int → Bool) (req : Request)
    (route : String) : Nat → LoopState → Stream
  | 0, _ => ⟨[], [], false⟩
  | fuel + 1, s =>
    let p := fetchPager req s.offset
    match fetchPage L c route s.attempt p with
    | .error err => ⟨[{ PageNumber := s.pageNumber, Err := some err }], [p], true⟩
    | .ok res =>
      if res.Giphs.length = 0 then ⟨[], [p], true⟩
      else
        let page : Page := { PageNumber := s.pageNumber, Giphs := res.Giphs }
        let pageNumber := (s.pageNumber + 1) % u64
        if pageExceeds req.MaxPageNumber pageNumber then ⟨[page], [p], true⟩
        else if cancelSeen s.attempt (throttleDuration req) then ⟨[page], [p], true⟩
        else
          let offset := nextOffset s.offset res
          let rest := producer L c cancelSeen req route fuel
            { attempt := s.attempt + 1, pageNumber := pageNumber, offset := offset }
          ⟨page :: rest.pages, p :: rest.pagers, rest.closed⟩

/-- The struct `ResponsePager`: the state behind `Cancel`, and the stream
behind `Pages` as a function of the number of loop iterations run. -/
structure ResponsePager where
  Cancel : Canceler
  Pages : Nat → Stream

/-- The method `Client.fetch`: the pager and the error it returns. A nil
request is replaced by `new(Request)`. -/
def fetch (L : Lib) (c : Client) (cancelSeen : Nat → Int → Bool) (req : Option Request)
    (route : String) : Option ResponsePager × Option GoError :=
  let req := match req with
    | none => ({} : Request)
    | some r => r
  (some { Cancel := makeCanceler
          Pages := fun fuel => producer L c cancelSeen req route fuel {} }, none)

/-- The method `Client.Trending`. -/
def Trending (L : Lib) (c : Client) (cancelSeen : Nat → Int → Bool) (req : Option Request) :
    Option ResponsePager × Option GoError :=
  fetch L c cancelSeen req "/gifs/trending"

/-- The method `Client.TrendingStickers`. -/
def TrendingStickers (L : Lib) (c : Client) (cancelSeen : Nat → Int → Bool)
    (req : Option Request) : Option ResponsePager × Option GoError :=
  fetch L c cancelSeen req "/stickers/trending"

/-- The method `Client.SearchStickers`. -/
def SearchStickers (L : Lib) (c : Client) (cancelSeen : Nat → Int → Bool)
    (req : Option Request) : Option ResponsePager × Option GoError :=
  fetch L c cancelSeen req "/stickers/search"

/-- The method `Client.Search`. -/
def Search (L : Lib) (c : Client) (cancelSeen : Nat → Int → Bool) (req : Option Request) :
    Option ResponsePager × Option GoError :=
  fetch L c cancelSeen req "/gifs/search"

/-- The value of the variable `pageNumber` at the start of iteration `k`: it
starts at `uint64(0)` and each iteration that continues runs
`pageNumber += 1`. -/
def pageNumberAt : Nat → Nat
  | 0 => 0
  | k + 1 => (pageNumberAt k + 1) % u64

/-- The value of the variable `offset` at the start of iteration `k`, when
iteration `i` decoded the response `resp i`. -/
def offsetAt (resp : Nat → Response) : Nat → Nat
  | 0 => 0
  | k + 1 => nextOffset (offsetAt resp k) (resp k)

/-! ## Test doubles -/

/-- A caller that never cancels. -/
def neverCancel : Nat → Int → Bool := fun _ _ => false

/-- A response body of twenty items, with the pagination count the server
reports for it. -/
def twentyItems : Response :=
  { Giphs := List.replicate 20 (some { Type_ := "gif" }), Pagination := some { Count := 20 } }

/-- Library stand-ins for the test doubles: the query string holds the offset
only, and three bodies decode. -/
def stubLib : Lib where
  ToURLValues := fun p => .ok (fun k =>
    if k = "offset" then some [toString p.Offset]
    else if k = "q" then some [p.Query] else none)
  Encode := fun qv => match qv "offset" with
    | some [v] => "offset=" ++ v
    | _ => ""
  NewRequest := fun m u => .ok ⟨m, u⟩
  UnmarshalResponse := fun b =>
    if b = "twenty" then .ok twentyItems
    else if b = "empty" then .ok {}
    else .error ⟨"unexpected end of JSON input"⟩
  UnmarshalGiphWrap := fun b =>
    if b = "\x7b\"data\":\x7b\x7d\x7d" then .ok { Giph := some {} }
    else if b = "\x7b\"data\":\x7b\"id\":\"3ohze2UfcItWPUFqbm\"\x7d\x7d" then
      .ok { Giph := some { ID := "3ohze2UfcItWPUFqbm" } }
    else .error ⟨"unexpected end of JSON input"⟩

/-- A stub transport in the manner of the tests: the search route serves twenty
items at each of the offsets 0, 20, 40 and 60 and an empty page at offset 80,
the by-id route serves an empty object for one id and an item for another,
anything else is a bad request. -/
def stubClient : Client where
  rt := fun _ r =>
    if r.URL = "https://api.giphy.com/v1/gifs/search?offset=0"
        ∨ r.URL = "https://api.giphy.com/v1/gifs/search?offset=20"
        ∨ r.URL = "https://api.giphy.com/v1/gifs/search?offset=40"
        ∨ r.URL = "https://api.giphy.com/v1/gifs/search?offset=60" then
      .ok { Status := "200 OK", StatusCode := 200, Body := ("twenty", none) }
    else if r.URL = "https://api.giphy.com/v1/gifs/search?offset=80" then
      .ok { Status := "200 OK", StatusCode := 200, Body := ("empty", none) }
    else if r.URL = "https://api.giphy.com/v1/gifs/abc123?" then
      .ok { Status := "200 OK", StatusCode := 200, Body := ("\x7b\"data\":\x7b\x7d\x7d", none) }
    else if r.URL = "https://api.giphy.com/v1/gifs/3ohze2UfcItWPUFqbm?" then
      .ok { Status := "200 OK", StatusCode := 200,
            Body := ("\x7b\"data\":\x7b\"id\":\"3ohze2UfcItWPUFqbm\"\x7d\x7d", none) }
    else .ok { Status := "400 Bad Request", StatusCode := 400 }
  apiKey := fun _ => "test-api-key1"

/-- Library stand-ins under which every body decodes to one item and no
pagination metadata. -/
def endlessLib : Lib where
  ToURLValues := fun _ => .ok (fun _ => none)
  Encode := fun _ => ""
  NewRequest := fun m u => .ok ⟨m, u⟩
  UnmarshalResponse := fun _ => .ok { Giphs := [some { Type_ := "gif" }] }
  UnmarshalGiphWrap := fun _ => .ok { Giph := some { Type_ := "gif" } }

/-- A transport that answers every request with status 200. -/
def endlessClient : Client where
  rt := fun _ _ => .ok { Status := "200 OK", StatusCode := 200 }
  apiKey := fun _ => "test-api-key1"

/-- A transport whose 200 response has a body that fails while being read. -/
def brokenBodyClient : Client where
  rt := fun _ _ =>
    .ok { Status := "200 OK", StatusCode := 200, Body := ("\x7b\"da", some ⟨"unexpected EOF"⟩) }
  apiKey := fun _ => "test-api-key1"

/-- Library stand-ins for single-item bodies without an item: the bodies `{}`
and `{"data":null}` are valid JSON for a `giphWrap` and leave its `Giph`
pointer nil, as `json.Unmarshal` does. -/
def nullDataLib : Lib where
  ToURLValues := fun _ => .ok (fun _ => none)
  Encode := fun _ => ""
  NewRequest := fun m u => .ok ⟨m, u⟩
  UnmarshalResponse := fun _ => .ok {}
  UnmarshalGiphWrap := fun b =>
    if b = "\x7b\x7d" ∨ b = "\x7b\"data\":null\x7d" then .ok { Giph := none }
    else .error ⟨"unexpected end of JSON input"⟩

/-- A transport that answers with status 200 and the body `{}` for the id
`abc123`, and with status 200 and the body `{"data":null}` for anything else. -/
def nullDataClient : Client where
  rt := fun _ r =>
    if r.URL = "https://api.giphy.com/v1/gifs/abc123?" then
      .ok { Status := "200 OK", StatusCode := 200, Body := ("\x7b\x7d", none) }
    else .ok { Status := "200 OK", StatusCode := 200, Body := ("\x7b\"data\":null\x7d", none) }
  apiKey := fun _ => "test-api-key1"

/-! ## Quantities of a finished run -/

/-- The result count a response reports: `res.Pagination.Count`, and nothing
when `res.Pagination` is nil. -/
def reportedCount (res : Response) : Nat :=
  match res.Pagination with
  | some pg => pg.Count
  | none => 0

/-- The result count the server reported in answer to attempt `k` of a
stream whose attempts used the wire parameters `pagers`; zero when the attempt
was not made or failed. -/
def servedCount (L : Lib) (c : Client) (route : String) (pagers : List pager) (k : Nat) : Nat :=
  match pagers[k]? with
  | none => 0
  | some p =>
    match fetchPage L c route k p with
    | .ok res => reportedCount res
    | .error _ => 0

/-! ## The loop, one iteration at a time -/

section Loop

variable (L : Lib) (c : Client) (cancelSeen : Nat → Int → Bool) (req : Request)
  (route : String)

theorem producer_error {s : LoopState} {err : GoError} (fuel : Nat)
    (h : fetchPage L c route s.attempt (fetchPager req s.offset) = .error err) :
    producer L c cancelSeen req route (fuel + 1) s
      = ⟨[{ PageNumber := s.pageNumber, Err := some err }], [fetchPager req s.offset], true⟩ := by
  simp only [producer, h]

theorem producer_empty {s : LoopState} {res : Response} (fuel : Nat)
    (h : fetchPage L c route s.attempt (fetchPager req s.offset) = .ok res)
    (h0 : res.Giphs.length = 0) :
    producer L c cancelSeen req route (fuel + 1) s = ⟨[], [fetchPager req s.offset], true⟩ := by
  simp only [producer, h, h0, if_true]

theorem producer_last {s : LoopState} {res : Response} (fuel : Nat)
    (h : fetchPage L c route s.attempt (fetchPager req s.offset) = .ok res)
    (h0 : res.Giphs.length ≠ 0)
    (hstop : pageExceeds req.MaxPageNumber ((s.pageNumber + 1) % u64) = true
      ∨ cancelSeen s.attempt (throttleDuration req) = true) :
    producer L c cancelSeen req route (fuel + 1) s
      = ⟨[{ PageNumber := s.pageNumber, Giphs := res.Giphs }], [fetchPager req s.offset], true⟩ := by
  simp only [producer, h, h0, if_false]
  rcases hstop with hx | hx
  · simp [hx]
  · by_cases he : pageExceeds req.MaxPageNumber ((s.pageNumber + 1) % u64) = true
    · simp [he]
    · simp [he, hx]

theorem producer_next {s : LoopState} {res : Response} (fuel : Nat)
    (h : fetchPage L c route s.attempt (fetchPager req s.offset) = .ok res)
    (h0 : res.Giphs.length ≠ 0)
    (hx : pageExceeds req.MaxPageNumber ((s.pageNumber + 1) % u64) = false)
    (hc : cancelSeen s.attempt (throttleDuration req) = false) :
    producer L c cancelSeen req route (fuel + 1) s
      = ⟨{ PageNumber := s.pageNumber, Giphs := res.Giphs } ::
            (producer L c cancelSeen req route fuel
              ⟨s.attempt + 1, (s.pageNumber + 1) % u64, nextOffset s.offset res⟩).pages,
          fetchPager req s.offset ::
            (producer L c cancelSeen req route fuel
              ⟨s.attempt + 1, (s.pageNumber + 1) % u64, nextOffset s.offset res⟩).pagers,
          (producer L c cancelSeen req route fuel
              ⟨s.attempt + 1, (s.pageNumber + 1) % u64, nextOffset s.offset res⟩).closed⟩ := by
  simp only [producer, h, h0, if_false, hx, hc]
  simp

/-- The four ways one iteration can go: a failed fetch, an empty page, a last
page (limit reached or cancellation seen), or a page followed by the rest. -/
theorem producer_cases (fuel : Nat) (s : LoopState) :
    (∃ err, fetchPage L c route s.attempt (fetchPager req s.offset) = .error err ∧
      producer L c cancelSeen req route (fuel + 1) s
        = ⟨[{ PageNumber := s.pageNumber, Err := some err }], [fetchPager req s.offset], true⟩)
    ∨ (∃ res, fetchPage L c route s.attempt (fetchPager req s.offset) = .ok res ∧
      res.Giphs.length = 0 ∧
      producer L c cancelSeen req route (fuel + 1) s = ⟨[], [fetchPager req s.offset], true⟩)
    ∨ (∃ res, fetchPage L c route s.attempt (fetchPager req s.offset) = .ok res ∧
      res.Giphs.length ≠ 0 ∧
      (pageExceeds req.MaxPageNumber ((s.pageNumber + 1) % u64) = true
        ∨ cancelSeen s.attempt (throttleDuration req) = true) ∧
      producer L c cancelSeen req route (fuel + 1) s
        = ⟨[{ PageNumber := s.pageNumber, Giphs := res.Giphs }], [fetchPager req s.offset], true⟩)
    ∨ (∃ res, fetchPage L c route s.attempt (fetchPager req s.offset) = .ok res ∧
      res.Giphs.length ≠ 0 ∧
      pageExceeds req.MaxPageNumber ((s.pageNumber + 1) % u64) = false ∧
      cancelSeen s.attempt (throttleDuration req) = false ∧
      producer L c cancelSeen req route (fuel + 1) s
        = ⟨{ PageNumber := s.pageNumber, Giphs := res.Giphs } ::
            (producer L c cancelSeen req route fuel
              ⟨s.attempt + 1, (s.pageNumber + 1) % u64, nextOffset s.offset res⟩).pages,
          fetchPager req s.offset ::
            (producer L c cancelSeen req route fuel
              ⟨s.attempt + 1, (s.pageNumber + 1) % u64, nextOffset s.offset res⟩).pagers,
          (producer L c cancelSeen req route fuel
              ⟨s.attempt + 1, (s.pageNumber + 1) % u64, nextOffset s.offset res⟩).closed⟩) := by
  cases h : fetchPage L c route s.attempt (fetchPager req s.offset) with
  | error err => exact Or.inl ⟨err, rfl, producer_error L c cancelSeen req route fuel h⟩
  | ok res =>
    right
    by_cases h0 : res.Giphs.length = 0
    · exact Or.inl ⟨res, rfl, h0, producer_empty L c cancelSeen req route fuel h h0⟩
    · right
      by_cases hx : pageExceeds req.MaxPageNumber ((s.pageNumber + 1) % u64) = true
      · exact Or.inl ⟨res, rfl, h0, Or.inl hx,
          producer_last L c cancelSeen req route fuel h h0 (Or.inl hx)⟩
      · by_cases hc : cancelSeen s.attempt (throttleDuration req) = true
        · exact Or.inl ⟨res, rfl, h0, Or.inr hc,
            producer_last L c cancelSeen req route fuel h h0 (Or.inr hc)⟩
        · simp only [Bool.not_eq_true] at hx hc
          exact Or.inr ⟨res, rfl, h0, hx, hc,
            producer_next L c cancelSeen req route fuel h h0 hx hc⟩

/-- Once the channel is closed, running the loop longer changes nothing. -/
theorem producer_stable (fuel k : Nat) (s : LoopState)
    (h : (producer L c cancelSeen req route fuel s).closed = true) :
    producer L c cancelSeen req route (fuel + k) s = producer L c cancelSeen req route fuel s := by
  induction fuel generalizing s with
  | zero => simp [producer] at h
  | succ fuel ih =>
    have e : fuel + 1 + k = (fuel + k) + 1 := by omega
    rw [e]
    rcases producer_cases L c cancelSeen req route fuel s with
      ⟨err, hf, hp⟩ | ⟨res, hf, h0, hp⟩ | ⟨res, hf, h0, hstop, hp⟩ | ⟨res, hf, h0, hx, hc, hp⟩
    · rw [hp, producer_error L c cancelSeen req route (fuel + k) hf]
    · rw [hp, producer_empty L c cancelSeen req route (fuel + k) hf h0]
    · rw [hp, producer_last L c cancelSeen req route (fuel + k) hf h0 hstop]
    · rw [hp] at h
      rw [hp, producer_next L c cancelSeen req route (fuel + k) hf h0 hx hc, ih _ h]

/-- With a page limit `N` below `2 ^ 64` the loop sends at most `N - pageNumber`
more pages. -/
theorem producer_length_le (hN : req.MaxPageNumber < u64) (fuel : Nat) (s : LoopState)
    (hs : s.pageNumber < req.MaxPageNumber) :
    (producer L c cancelSeen req route fuel s).pages.length + s.pageNumber
      ≤ req.MaxPageNumber := by
  induction fuel generalizing s with
  | zero => simp [producer]; omega
  | succ fuel ih =>
    rcases producer_cases L c cancelSeen req route fuel s with
      ⟨err, hf, hp⟩ | ⟨res, hf, h0, hp⟩ | ⟨res, hf, h0, hstop, hp⟩ | ⟨res, hf, h0, hx, hc, hp⟩
    · rw [hp]; simp; omega
    · rw [hp]; simp; omega
    · rw [hp]; simp; omega
    · rw [hp]
      have hmod : (s.pageNumber + 1) % u64 = s.pageNumber + 1 := Nat.mod_eq_of_lt (by omega)
      rw [hmod] at hx ⊢
      have hlt : s.pageNumber + 1 < req.MaxPageNumber := by
        unfold pageExceeds at hx
        split at hx
        · omega
        · simp at hx; exact hx
      have := ih ⟨s.attempt + 1, s.pageNumber + 1, nextOffset s.offset res⟩ hlt
      simp at this ⊢
      omega

/-- With a page limit `N` below `2 ^ 64` the loop has returned after
`N - pageNumber` iterations. -/
theorem producer_closed (hN : req.MaxPageNumber < u64) (fuel : Nat) (s : LoopState)
    (hs : s.pageNumber < req.MaxPageNumber) (hfuel : req.MaxPageNumber ≤ fuel + s.pageNumber) :
    (producer L c cancelSeen req route fuel s).closed = true := by
  induction fuel generalizing s with
  | zero => omega
  | succ fuel ih =>
    rcases producer_cases L c cancelSeen req route fuel s with
      ⟨err, hf, hp⟩ | ⟨res, hf, h0, hp⟩ | ⟨res, hf, h0, hstop, hp⟩ | ⟨res, hf, h0, hx, hc, hp⟩
    · rw [hp]
    · rw [hp]
    · rw [hp]
    · rw [hp]
      have hmod : (s.pageNumber + 1) % u64 = s.pageNumber + 1 := Nat.mod_eq_of_lt (by omega)
      rw [hmod] at hx ⊢
      have hlt : s.pageNumber + 1 < req.MaxPageNumber := by
        unfold pageExceeds at hx
        split at hx
        · omega
        · simp at hx; exact hx
      exact ih ⟨s.attempt + 1, s.pageNumber + 1, nextOffset s.offset res⟩ hlt
        (by simp only; omega)

end Loop

/-! ## Claims -/

/-- C1: for a Request with `MaxPageNumber = N > 0` (a `uint64`, so below
`2 ^ 64`), whatever the transport, the libraries and the cancellation timing
do, the stream `fetch` returns never holds more than `N` pages, error pages
included; after `N` iterations of the loop the channel is closed, and the
stream no longer changes. -/
theorem C1_at_most_max_pages (L : Lib) (c : Client) (cancelSeen : Nat → Int → Bool)
    (req : Request) (route : String)
    (hpos : 0 < req.MaxPageNumber) (h64 : req.MaxPageNumber < u64) :
    ∃ rp, fetch L c cancelSeen (some req) route = (some rp, none) ∧
      (∀ fuel, (rp.Pages fuel).pages.length ≤ req.MaxPageNumber) ∧
      (rp.Pages req.MaxPageNumber).closed = true ∧
      (∀ k, rp.Pages (req.MaxPageNumber + k) = rp.Pages req.MaxPageNumber) := by
  refine ⟨_, rfl, ?_, ?_, ?_⟩
  · intro fuel
    have := producer_length_le L c cancelSeen req route h64 fuel {} hpos
    simpa using this
  · exact producer_closed L c cancelSeen req route h64 _ {} hpos (by simp)
  · intro k
    exact producer_stable L c cancelSeen req route _ k {}
      (producer_closed L c cancelSeen req route h64 _ {} hpos (by simp))

/-- C1 at the stub transport with `MaxPageNumber = 2`. -/
theorem C1_at_most_max_pages_witness :
    ∃ rp, fetch stubLib stubClient neverCancel (some { MaxPageNumber := 2 }) "/gifs/search"
        = (some rp, none) ∧
      (∀ fuel, (rp.Pages fuel).pages.length ≤ 2) ∧
      (rp.Pages 2).closed = true ∧
      (∀ k, rp.Pages (2 + k) = rp.Pages 2) :=
  C1_at_most_max_pages stubLib stubClient neverCancel { MaxPageNumber := 2 } "/gifs/search"
    (by decide) (by decide)

/-! ### Page numbers -/

theorem pageNumberAt_eq (k : Nat) : pageNumberAt k = k % u64 := by
  induction k with
  | zero => simp [pageNumberAt]
  | succ k ih => simp [pageNumberAt, ih, Nat.mod_add_mod]

/-- From a state whose `pageNumber` is the counter value of its attempt, the
pages sent carry the successive counter values. -/
theorem producer_pageNumbers (L : Lib) (c : Client) (cancelSeen : Nat → Int → Bool)
    (req : Request) (route : String) (fuel : Nat) (s : LoopState)
    (hs : s.pageNumber = pageNumberAt s.attempt) :
    (producer L c cancelSeen req route fuel s).pages.map Page.PageNumber
      = (List.range' s.attempt (producer L c cancelSeen req route fuel s).pages.length).map
          pageNumberAt := by
  induction fuel generalizing s with
  | zero => simp [producer]
  | succ fuel ih =>
    rcases producer_cases L c cancelSeen req route fuel s with
      ⟨err, hf, hp⟩ | ⟨res, hf, h0, hp⟩ | ⟨res, hf, h0, hstop, hp⟩ | ⟨res, hf, h0, hx, hc, hp⟩
    · rw [hp]; simp [hs]
    · rw [hp]; simp
    · rw [hp]; simp [hs]
    · rw [hp]
      have := ih ⟨s.attempt + 1, (s.pageNumber + 1) % u64, nextOffset s.offset res⟩
        (by simp [pageNumberAt, hs])
      simp only [List.map_cons, List.length_cons, List.range'_succ, this]
      rw [hs]

/-- The page numbers of a stream are the indices reduced modulo `2 ^ 64`. -/
theorem stream_pageNumbers (L : Lib) (c : Client) (cancelSeen : Nat → Int → Bool)
    (req : Request) (route : String) (fuel : Nat) :
    (producer L c cancelSeen req route fuel {}).pages.map Page.PageNumber
      = (List.range (producer L c cancelSeen req route fuel {}).pages.length).map
          (fun i => i % u64) := by
  rw [producer_pageNumbers L c cancelSeen req route fuel {} rfl, List.range_eq_range']
  exact List.map_congr_left (fun i _ => pageNumberAt_eq i)

/-- The first `2 ^ 64` pages of a stream are numbered by their indices. -/
theorem stream_pageNumbers_take (L : Lib) (c : Client) (cancelSeen : Nat → Int → Bool)
    (req : Request) (route : String) (fuel : Nat) :
    ((producer L c cancelSeen req route fuel {}).pages.take u64).map Page.PageNumber
      = List.range (min u64 (producer L c cancelSeen req route fuel {}).pages.length) := by
  rw [List.map_take, stream_pageNumbers, ← List.map_take, List.take_range]
  conv_rhs => rw [← List.map_id (List.range _)]
  apply List.map_congr_left
  intro i hi
  simp only [List.mem_range] at hi
  exact Nat.mod_eq_of_lt (by omega)

/-- Against the endless transport, with no page limit and no cancellation,
every iteration sends a page. -/
theorem endless_length (route : String) (fuel : Nat) (s : LoopState) :
    (producer endlessLib endlessClient neverCancel {} route fuel s).pages.length = fuel := by
  induction fuel generalizing s with
  | zero => simp [producer]
  | succ fuel ih =>
    have hf : fetchPage endlessLib endlessClient route s.attempt (fetchPager {} s.offset)
        = .ok { Giphs := [some { Type_ := "gif" }] } := rfl
    rw [producer_next endlessLib endlessClient neverCancel {} route fuel hf (by simp)
      (by simp [pageExceeds]) rfl]
    simp [ih]

/-- C2 (as amended): in every stream produced by `fetch`, for a nil or a
non-nil Request, the page at index `i` has `PageNumber = i mod 2 ^ 64`
(`PageNumber` is a `uint64` incremented once per page); so the first `2 ^ 64`
pages of a stream are numbered exactly 0, 1, 2, ... with no gap and no repeat,
whether or not the last page is an error page. -/
theorem C2_page_numbers_mod (L : Lib) (c : Client) (cancelSeen : Nat → Int → Bool)
    (req : Option Request) (route : String) :
    ∃ rp, fetch L c cancelSeen req route = (some rp, none) ∧
      (∀ fuel, (rp.Pages fuel).pages.map Page.PageNumber
          = (List.range (rp.Pages fuel).pages.length).map (fun i => i % u64)) ∧
      (∀ fuel, ((rp.Pages fuel).pages.take u64).map Page.PageNumber
          = List.range (min u64 (rp.Pages fuel).pages.length)) := by
  cases req with
  | none => exact ⟨_, rfl, fun fuel => stream_pageNumbers _ _ _ _ _ fuel,
      fun fuel => stream_pageNumbers_take _ _ _ _ _ fuel⟩
  | some r => exact ⟨_, rfl, fun fuel => stream_pageNumbers _ _ _ _ _ fuel,
      fun fuel => stream_pageNumbers_take _ _ _ _ _ fuel⟩

/-- C2 fails as stated: with no page limit, a transport that always serves one
item and a caller that never cancels, the stream reaches `2 ^ 64 + 1` pages,
and the page at index `2 ^ 64` has `PageNumber` 0, as the page at index 0 has:
the number is not the index, and it repeats. -/
theorem C2_counterexample :
    ∃ rp, fetch endlessLib endlessClient neverCancel none "/gifs/trending" = (some rp, none) ∧
      (rp.Pages (2 ^ 64 + 1)).pages.length = 2 ^ 64 + 1 ∧
      ((rp.Pages (2 ^ 64 + 1)).pages.map Page.PageNumber)[0]? = some 0 ∧
      ((rp.Pages (2 ^ 64 + 1)).pages.map Page.PageNumber)[2 ^ 64]? = some 0 := by
  refine ⟨_, rfl, endless_length _ _ _, ?_, ?_⟩
  · simp only [stream_pageNumbers, endless_length]
    rw [List.getElem?_map, List.getElem?_range (by omega)]
    rfl
  · simp only [stream_pageNumbers, endless_length]
    rw [List.getElem?_map, List.getElem?_range (by omega)]
    simp [u64]

/-! ### Error pages and empty pages -/

section Outcomes

variable (L : Lib) (c : Client) (cancelSeen : Nat → Int → Bool) (req : Request)
  (route : String)

/-- A page with an error has no items, is the last page sent, and the channel
is closed after it. -/
theorem producer_error_last (fuel : Nat) (s : LoopState) (i : Nat) (pg : Page)
    (h : (producer L c cancelSeen req route fuel s).pages[i]? = some pg)
    (he : pg.Err ≠ none) :
    pg.Giphs = [] ∧ i + 1 = (producer L c cancelSeen req route fuel s).pages.length ∧
      (producer L c cancelSeen req route fuel s).closed = true := by
  induction fuel generalizing s i with
  | zero => simp [producer] at h
  | succ fuel ih =>
    rcases producer_cases L c cancelSeen req route fuel s with
      ⟨err, hf, hp⟩ | ⟨res, hf, h0, hp⟩ | ⟨res, hf, h0, hstop, hp⟩ | ⟨res, hf, h0, hx, hc, hp⟩
    · rw [hp] at h ⊢
      cases i with
      | zero => simp at h; subst h; simp
      | succ i => simp at h
    · rw [hp] at h; simp at h
    · rw [hp] at h
      cases i with
      | zero => simp at h; subst h; simp at he
      | succ i => simp at h
    · rw [hp] at h ⊢
      cases i with
      | zero => simp at h; subst h; simp at he
      | succ i =>
        simp only [List.getElem?_cons_succ] at h
        have := ih _ i h
        simpa using this

/-- A page without an error carries at least one item. -/
theorem producer_ok_nonempty (fuel : Nat) (s : LoopState) (pg : Page)
    (h : pg ∈ (producer L c cancelSeen req route fuel s).pages) (he : pg.Err = none) :
    pg.Giphs ≠ [] := by
  induction fuel generalizing s with
  | zero => simp [producer] at h
  | succ fuel ih =>
    rcases producer_cases L c cancelSeen req route fuel s with
      ⟨err, hf, hp⟩ | ⟨res, hf, h0, hp⟩ | ⟨res, hf, h0, hstop, hp⟩ | ⟨res, hf, h0, hx, hc, hp⟩
    · rw [hp] at h; simp at h; subst h; simp at he
    · rw [hp] at h; simp at h
    · rw [hp] at h; simp at h; subst h
      simpa [List.length_eq_zero] using h0
    · rw [hp] at h
      simp only [List.mem_cons] at h
      rcases h with h | h
      · subst h; simpa [List.length_eq_zero] using h0
      · exact ih _ h

/-- When the attempt at index `j` fails, its error page is the page at index
`j`, numbered with the counter value of that attempt, and the loop returns. -/
theorem producer_failed_attempt (fuel : Nat) (s : LoopState) (j : Nat) (p : pager)
    (err : GoError) (hs : s.pageNumber = pageNumberAt s.attempt)
    (h : (producer L c cancelSeen req route fuel s).pagers[j]? = some p)
    (hf : fetchPage L c route (s.attempt + j) p = .error err) :
    (producer L c cancelSeen req route fuel s).pages.length = j + 1 ∧
      (producer L c cancelSeen req route fuel s).pages[j]?
        = some { PageNumber := pageNumberAt (s.attempt + j), Err := some err } ∧
      (producer L c cancelSeen req route fuel s).closed = true ∧
      (producer L c cancelSeen req route fuel s).pagers.length = j + 1 := by
  induction fuel generalizing s j with
  | zero => simp [producer] at h
  | succ fuel ih =>
    rcases producer_cases L c cancelSeen req route fuel s with
      ⟨err1, hf1, hp⟩ | ⟨res, hf1, h0, hp⟩ | ⟨res, hf1, h0, hstop, hp⟩ | ⟨res, hf1, h0, hx, hc, hp⟩
    · rw [hp] at h ⊢
      cases j with
      | zero =>
        simp at h; subst h
        rw [Nat.add_zero, hf1] at hf
        cases hf
        simp [hs]
      | succ j => simp at h
    · rw [hp] at h
      cases j with
      | zero => simp at h; subst h; rw [Nat.add_zero, hf1] at hf; cases hf
      | succ j => simp at h
    · rw [hp] at h
      cases j with
      | zero => simp at h; subst h; rw [Nat.add_zero, hf1] at hf; cases hf
      | succ j => simp at h
    · rw [hp] at h ⊢
      cases j with
      | zero => simp at h; subst h; rw [Nat.add_zero, hf1] at hf; cases hf
      | succ j =>
        simp only [List.getElem?_cons_succ] at h
        have e : s.attempt + (j + 1) = s.attempt + 1 + j := by omega
        rw [e] at hf ⊢
        have := ih ⟨s.attempt + 1, (s.pageNumber + 1) % u64, nextOffset s.offset res⟩ j
          (by simp [pageNumberAt, hs]) h hf
        simpa using this

/-- When the attempt at index `j` decodes to zero items, no page is sent for
it, no error page was sent before it, no further attempt is made and the loop
returns. -/
theorem producer_empty_attempt (fuel : Nat) (s : LoopState) (j : Nat) (p : pager)
    (res : Response)
    (h : (producer L c cancelSeen req route fuel s).pagers[j]? = some p)
    (hf : fetchPage L c route (s.attempt + j) p = .ok res) (hz : res.Giphs.length = 0) :
    (producer L c cancelSeen req route fuel s).pages.length = j ∧
      (producer L c cancelSeen req route fuel s).pagers.length = j + 1 ∧
      (producer L c cancelSeen req route fuel s).closed = true ∧
      ∀ pg ∈ (producer L c cancelSeen req route fuel s).pages, pg.Err = none := by
  induction fuel generalizing s j with
  | zero => simp [producer] at h
  | succ fuel ih =>
    rcases producer_cases L c cancelSeen req route fuel s with
      ⟨err1, hf1, hp⟩ | ⟨res1, hf1, h0, hp⟩ | ⟨res1, hf1, h0, hstop, hp⟩ |
      ⟨res1, hf1, h0, hx, hc, hp⟩
    · rw [hp] at h
      cases j with
      | zero => simp at h; subst h; rw [Nat.add_zero, hf1] at hf; cases hf
      | succ j => simp at h
    · rw [hp] at h ⊢
      cases j with
      | zero => simp
      | succ j => simp at h
    · rw [hp] at h
      cases j with
      | zero =>
        simp at h; subst h; rw [Nat.add_zero, hf1] at hf; cases hf
        exact absurd hz h0
      | succ j => simp at h
    · rw [hp] at h ⊢
      cases j with
      | zero =>
        simp at h; subst h; rw [Nat.add_zero, hf1] at hf; cases hf
        exact absurd hz h0
      | succ j =>
        simp only [List.getElem?_cons_succ] at h
        have e : s.attempt + (j + 1) = s.attempt + 1 + j := by omega
        rw [e] at hf
        have := ih ⟨s.attempt + 1, (s.pageNumber + 1) % u64, nextOffset s.offset res1⟩ j h hf
        simpa using this

end Outcomes

/-- The pager that `fetch` returns for a non-nil request. -/
theorem fetch_pager_eq {L : Lib} {c : Client} {cancelSeen : Nat → Int → Bool} {req : Request}
    {route : String} {rp : ResponsePager}
    (h : fetch L c cancelSeen (some req) route = (some rp, none)) :
    rp = { Cancel := makeCanceler
           Pages := fun fuel => producer L c cancelSeen req route fuel {} } := by
  have := congrArg Prod.fst h
  simp only [fetch, Option.some.injEq] at this
  exact this.symm

/-- The three ways a round trip makes a page attempt fail: a transport error,
a status outside 200..299 (the error is the status line), and a body that does
not decode. -/
theorem fetchPage_failures (L : Lib) (c : Client) (route : String) (k : Nat) (p : pager)
    (qv : Values) (httpReq : HTTPRequest)
    (hqv : L.ToURLValues p = .ok qv)
    (hreq : L.NewRequest "GET"
      (baseURL ++ route ++ "?" ++ L.Encode (qv.Set "api_key" (c.apiKey k))) = .ok httpReq) :
    (∀ e, c.rt k httpReq = .error e → fetchPage L c route k p = .error e) ∧
    (∀ res, c.rt k httpReq = .ok res → ¬ (200 ≤ res.StatusCode ∧ res.StatusCode ≤ 299) →
      fetchPage L c route k p = .error ⟨res.Status⟩) ∧
    (∀ res e, c.rt k httpReq = .ok res → (200 ≤ res.StatusCode ∧ res.StatusCode ≤ 299) →
      res.Body.2 = none → L.UnmarshalResponse res.Body.1 = .error e →
      fetchPage L c route k p = .error e) := by
  refine ⟨?_, ?_, ?_⟩
  · intro e h
    simp [fetchPage, hqv, hreq, doHTTPReq, h]
  · intro res h hs
    simp [fetchPage, hqv, hreq, doHTTPReq, h, StatusOK, hs]
  · intro res e h hs hb hd
    simp [fetchPage, hqv, hreq, doHTTPReq, h, StatusOK, hs, hb, hd]

/-- C3: in every stream produced by `fetch`, if the fetch attempt at index `k`
(the attempt for the page whose number is the value `pageNumberAt k` of the
loop variable `pageNumber`) fails with `err`, the stream holds exactly `k + 1`
pages, the last of which has that page number, the error `err` and no items,
the channel is closed and no further attempt is made; every page with a
non-nil `Err` has no items, is the last page and is followed by the close; and
when the first fetch fails the stream is the single page with `PageNumber` 0
and that error, then the close. A transport error, a status outside 200..299
and a body that does not decode each make the attempt fail. -/
theorem C3_error_page_is_last (L : Lib) (c : Client) (cancelSeen : Nat → Int → Bool)
    (req : Request) (route : String) :
    ∃ rp, fetch L c cancelSeen (some req) route = (some rp, none) ∧
      (∀ fuel k p err, (rp.Pages fuel).pagers[k]? = some p →
        fetchPage L c route k p = .error err →
          (rp.Pages fuel).pages.length = k + 1 ∧
          (rp.Pages fuel).pages[k]?
            = some { PageNumber := pageNumberAt k, Err := some err, Giphs := [] } ∧
          (rp.Pages fuel).closed = true ∧
          (rp.Pages fuel).pagers.length = k + 1) ∧
      (∀ fuel i pg, (rp.Pages fuel).pages[i]? = some pg → pg.Err ≠ none →
          pg.Giphs = [] ∧ i + 1 = (rp.Pages fuel).pages.length ∧
          (rp.Pages fuel).closed = true) ∧
      (∀ fuel err, fetchPage L c route 0 (fetchPager req 0) = .error err →
          (rp.Pages (fuel + 1)).pages = [{ PageNumber := 0, Err := some err, Giphs := [] }] ∧
          (rp.Pages (fuel + 1)).closed = true) ∧
      (∀ k p qv httpReq, L.ToURLValues p = .ok qv →
        L.NewRequest "GET"
          (baseURL ++ route ++ "?" ++ L.Encode (qv.Set "api_key" (c.apiKey k))) = .ok httpReq →
        (∀ e, c.rt k httpReq = .error e → fetchPage L c route k p = .error e) ∧
        (∀ res, c.rt k httpReq = .ok res →
          ¬ (200 ≤ res.StatusCode ∧ res.StatusCode ≤ 299) →
          fetchPage L c route k p = .error ⟨res.Status⟩) ∧
        (∀ res e, c.rt k httpReq = .ok res →
          (200 ≤ res.StatusCode ∧ res.StatusCode ≤ 299) →
          res.Body.2 = none → L.UnmarshalResponse res.Body.1 = .error e →
          fetchPage L c route k p = .error e)) := by
  refine ⟨_, rfl, ?_, ?_, ?_, fun k p qv httpReq hqv hreq =>
    fetchPage_failures L c route k p qv httpReq hqv hreq⟩
  · intro fuel k p err h hf
    have := producer_failed_attempt L c cancelSeen req route fuel {} k p err rfl h
      (by simpa using hf)
    simpa using this
  · intro fuel i pg h he
    exact producer_error_last L c cancelSeen req route fuel {} i pg h he
  · intro fuel err hf
    have := producer_error L c cancelSeen req route (s := {}) fuel hf
    simp only [this, and_self]

/-- C3 at the stub transport, on a route it does not serve: the first fetch
fails with the status line, and the stream is that one error page. -/
theorem C3_error_page_is_last_witness :
    ∃ rp, fetch stubLib stubClient neverCancel (some {}) "/gifs/trending" = (some rp, none) ∧
      (rp.Pages 1).pagers[0]? = some (fetchPager {} 0) ∧
      fetchPage stubLib stubClient "/gifs/trending" 0 (fetchPager {} 0)
        = .error ⟨"400 Bad Request"⟩ ∧
      (rp.Pages 1).pages.length = 1 ∧
      (rp.Pages 1).pages[0]?
        = some { PageNumber := 0, Err := some ⟨"400 Bad Request"⟩, Giphs := [] } ∧
      (rp.Pages 1).closed = true := by
  obtain ⟨rp, h, h1, -, -, -⟩ :=
    C3_error_page_is_last stubLib stubClient neverCancel {} "/gifs/trending"
  have e := fetch_pager_eq h
  have hp : (rp.Pages 1).pagers[0]? = some (fetchPager {} 0) := by subst e; rfl
  have hf : fetchPage stubLib stubClient "/gifs/trending" 0 (fetchPager {} 0)
      = .error ⟨"400 Bad Request"⟩ := by rfl
  obtain ⟨a, b, d, -⟩ := h1 1 0 _ _ hp hf
  exact ⟨rp, h, hp, hf, a, b, d⟩

/-- C4: in every stream produced by `fetch`, if the fetch attempt at index `k`
succeeds and decodes to zero items, the stream holds only the `k` pages sent
before it (none for that attempt), none of them an error page, no further
attempt is made and the channel is closed; and every page sent with a nil
`Err` carries at least one item. -/
theorem C4_empty_page_closes (L : Lib) (c : Client) (cancelSeen : Nat → Int → Bool)
    (req : Request) (route : String) :
    ∃ rp, fetch L c cancelSeen (some req) route = (some rp, none) ∧
      (∀ fuel k p res, (rp.Pages fuel).pagers[k]? = some p →
        fetchPage L c route k p = .ok res → res.Giphs.length = 0 →
          (rp.Pages fuel).pages.length = k ∧
          (rp.Pages fuel).pagers.length = k + 1 ∧
          (rp.Pages fuel).closed = true ∧
          ∀ pg ∈ (rp.Pages fuel).pages, pg.Err = none) ∧
      (∀ fuel pg, pg ∈ (rp.Pages fuel).pages → pg.Err = none → pg.Giphs ≠ []) := by
  refine ⟨_, rfl, ?_, ?_⟩
  · intro fuel k p res h hf hz
    exact producer_empty_attempt L c cancelSeen req route fuel {} k p res h
      (by simpa using hf) hz
  · intro fuel pg h he
    exact producer_ok_nonempty L c cancelSeen req route fuel {} pg h he

/-- C4 at the stub transport: the attempt at index 4 (offset 80) decodes to
zero items; the stream is the four pages before it, then the close. -/
theorem C4_empty_page_closes_witness :
    ∃ rp, fetch stubLib stubClient neverCancel (some {}) "/gifs/search" = (some rp, none) ∧
      (rp.Pages 9).pagers[4]? = some (fetchPager {} 80) ∧
      fetchPage stubLib stubClient "/gifs/search" 4 (fetchPager {} 80) = .ok {} ∧
      (rp.Pages 9).pages.length = 4 ∧
      (rp.Pages 9).pagers.length = 5 ∧
      (rp.Pages 9).closed = true := by
  obtain ⟨rp, h, h1, -⟩ := C4_empty_page_closes stubLib stubClient neverCancel {} "/gifs/search"
  have e := fetch_pager_eq h
  have hp : (rp.Pages 9).pagers[4]? = some (fetchPager {} 80) := by subst e; rfl
  have hf : fetchPage stubLib stubClient "/gifs/search" 4 (fetchPager {} 80) = .ok {} := by rfl
  obtain ⟨a, b, d, -⟩ := h1 9 4 _ _ hp hf rfl
  exact ⟨rp, h, hp, hf, a, b, d⟩

/-! ### A stream that runs to its page limit -/

/-- From attempt `a`, when the attempts `a, ..., a + m - 1 = N - 1` all succeed
with items and no cancellation is seen between them, the loop sends exactly
those `m` pages and returns. -/
theorem producer_full (L : Lib) (c : Client) (cancelSeen : Nat → Int → Bool) (req : Request)
    (route : String) (resp : Nat → Response) (h64 : req.MaxPageNumber < u64)
    (hcancel : ∀ i, i + 1 < req.MaxPageNumber → cancelSeen i (throttleDuration req) = false)
    (hok : ∀ i, i < req.MaxPageNumber →
      fetchPage L c route i (fetchPager req (offsetAt resp i)) = .ok (resp i) ∧
        (resp i).Giphs ≠ [])
    (m a k : Nat) (hm : 0 < m) (ha : a + m = req.MaxPageNumber) :
    producer L c cancelSeen req route (m + k) ⟨a, a, offsetAt resp a⟩
      = ⟨(List.range' a m).map
            (fun i => { PageNumber := i, Err := none, Giphs := (resp i).Giphs }),
          (List.range' a m).map (fun i => fetchPager req (offsetAt resp i)), true⟩ := by
  induction m generalizing a with
  | zero => omega
  | succ m ih =>
    have e : m + 1 + k = (m + k) + 1 := by omega
    rw [e]
    obtain ⟨hf, hne⟩ := hok a (by omega)
    have h0 : (resp a).Giphs.length ≠ 0 := by
      simpa [List.length_eq_zero] using hne
    have hmod : (a + 1) % u64 = a + 1 := Nat.mod_eq_of_lt (by omega)
    by_cases hm0 : m = 0
    · subst hm0
      have hx : pageExceeds req.MaxPageNumber ((a + 1) % u64) = true := by
        rw [hmod]; unfold pageExceeds
        rw [if_neg (by omega)]
        simp; omega
      rw [producer_last L c cancelSeen req route (s := ⟨a, a, offsetAt resp a⟩) _ hf h0
        (Or.inl hx)]
      simp
    · have hx : pageExceeds req.MaxPageNumber ((a + 1) % u64) = false := by
        rw [hmod]; unfold pageExceeds
        rw [if_neg (by omega)]
        simp; omega
      rw [producer_next L c cancelSeen req route (s := ⟨a, a, offsetAt resp a⟩) _ hf h0 hx
        (hcancel a (by omega))]
      have := ih (a + 1) (by omega) (by omega)
      simp only [hmod]
      have eo : nextOffset (offsetAt resp a) (resp a) = offsetAt resp (a + 1) := rfl
      rw [eo, this]
      simp [List.range'_succ]

/-- C5: for a Request with `MaxPageNumber = N > 0` (a `uint64`) whose stream
sees no cancellation between its first `N` pages, if each of the first `N`
fetch attempts succeeds and decodes to a response `resp i` with at least one
item, then after `N` iterations, and for ever after, the stream is exactly the
`N` pages numbered 0..N-1, page `i` with nil `Err` and the items of `resp i`
in order, followed by the close, with exactly `N` fetches made. -/
theorem C5_full_stream (L : Lib) (c : Client) (cancelSeen : Nat → Int → Bool)
    (req : Request) (route : String) (resp : Nat → Response)
    (hpos : 0 < req.MaxPageNumber) (h64 : req.MaxPageNumber < u64)
    (hcancel : ∀ i, i + 1 < req.MaxPageNumber → cancelSeen i (throttleDuration req) = false)
    (hok : ∀ i, i < req.MaxPageNumber →
      fetchPage L c route i (fetchPager req (offsetAt resp i)) = .ok (resp i) ∧
        (resp i).Giphs ≠ []) :
    ∃ rp, fetch L c cancelSeen (some req) route = (some rp, none) ∧
      ∀ k, (rp.Pages (req.MaxPageNumber + k)).pages
            = (List.range req.MaxPageNumber).map
                (fun i => { PageNumber := i, Err := none, Giphs := (resp i).Giphs }) ∧
          (rp.Pages (req.MaxPageNumber + k)).pagers
            = (List.range req.MaxPageNumber).map (fun i => fetchPager req (offsetAt resp i)) ∧
          (rp.Pages (req.MaxPageNumber + k)).closed = true := by
  refine ⟨_, rfl, ?_⟩
  intro k
  have := producer_full L c cancelSeen req route resp h64 hcancel hok req.MaxPageNumber 0 k
    hpos (by omega)
  simp only [List.range_eq_range']
  have e : ({} : LoopState) = ⟨0, 0, offsetAt resp 0⟩ := rfl
  rw [e, this]
  exact ⟨rfl, rfl, rfl⟩

/-- C5 at the stub transport: `MaxPageNumber` 2 gives two pages of twenty
items; Query "Milly Rock" and `MaxPageNumber` 4, with twenty items served at
each of the offsets 0, 20, 40 and 60, give four pages numbered 0 to 3, each of
those twenty items, and four fetches. -/
theorem C5_full_stream_witness :
    (∃ rp, fetch stubLib stubClient neverCancel (some { MaxPageNumber := 2 }) "/gifs/search"
        = (some rp, none) ∧
      ∀ k, (rp.Pages (2 + k)).pages
            = (List.range 2).map
                (fun i => { PageNumber := i, Err := none, Giphs := twentyItems.Giphs }) ∧
          (rp.Pages (2 + k)).pagers
            = (List.range 2).map (fun i =>
                fetchPager { MaxPageNumber := 2 } (offsetAt (fun _ => twentyItems) i)) ∧
          (rp.Pages (2 + k)).closed = true) ∧
    (∃ rp, fetch stubLib stubClient neverCancel
        (some { Query := "Milly Rock", MaxPageNumber := 4 }) "/gifs/search" = (some rp, none) ∧
      ∀ k, (rp.Pages (4 + k)).pages
            = (List.range 4).map
                (fun i => { PageNumber := i, Err := none, Giphs := twentyItems.Giphs }) ∧
          (rp.Pages (4 + k)).pagers
            = (List.range 4).map (fun i =>
                fetchPager { Query := "Milly Rock", MaxPageNumber := 4 }
                  (offsetAt (fun _ => twentyItems) i)) ∧
          (rp.Pages (4 + k)).closed = true) :=
  ⟨C5_full_stream stubLib stubClient neverCancel { MaxPageNumber := 2 }
      "/gifs/search" (fun _ => twentyItems) (by decide) (by decide) (fun _ _ => rfl)
      (by
        intro i hi
        have hi2 : i < 2 := hi
        interval_cases i <;> exact ⟨rfl, by simp [twentyItems]⟩),
   C5_full_stream stubLib stubClient neverCancel { Query := "Milly Rock", MaxPageNumber := 4 }
      "/gifs/search" (fun _ => twentyItems) (by decide) (by decide) (fun _ _ => rfl)
      (by
        intro i hi
        have hi4 : i < 4 := hi
        interval_cases i <;> exact ⟨rfl, by simp [twentyItems]⟩)⟩

/-! ### The canceler -/

/-- Once the canceler has fired, every call reports `errAlreadyClosed` and
leaves the state as it is. -/
theorem cancelCalls_done (n : Nat) (s : Canceler) (h : s.onceDone = true) :
    cancelCalls n s = (List.replicate n (some errAlreadyClosed), s) := by
  induction n with
  | zero => rfl
  | succ n ih => simp [cancelCalls, closeFn, h, ih, List.replicate_succ]

/-- C6: the cancellation function of `makeCanceler`, which is the `Cancel` of
every pager `fetch` returns, returns nil on its first invocation and closes
the cancel channel; on a fired canceler it returns the non-nil
`errAlreadyClosed` ("already closed") and changes nothing; so of `n + 1`
successive invocations exactly the first returns nil, and the state after them
is the state after the first. -/
theorem C6_cancel_exactly_once (n : Nat) :
    closeFn makeCanceler = (none, { onceDone := true, chClosed := true }) ∧
    (∀ s : Canceler, s.onceDone = true → closeFn s = (some errAlreadyClosed, s)) ∧
    cancelCalls (n + 1) makeCanceler
      = (none :: List.replicate n (some errAlreadyClosed),
          { onceDone := true, chClosed := true }) ∧
    errAlreadyClosed.msg = "already closed" ∧
    (∀ (L : Lib) (c : Client) (cancelSeen : Nat → Int → Bool) (req : Option Request)
      (route : String),
      ∃ rp, fetch L c cancelSeen req route = (some rp, none) ∧ rp.Cancel = makeCanceler) := by
  refine ⟨rfl, ?_, ?_, rfl, ?_⟩
  · intro s h
    simp [closeFn, h]
  · have := cancelCalls_done n { onceDone := true, chClosed := true } rfl
    simp [cancelCalls, closeFn, makeCanceler, this]
  · intro L c cancelSeen req route
    exact ⟨_, rfl, rfl⟩

/-- C6 for three invocations: nil, then "already closed" twice. -/
theorem C6_cancel_exactly_once_witness :
    cancelCalls 3 makeCanceler
      = ([none, some ⟨"already closed"⟩, some ⟨"already closed"⟩],
          { onceDone := true, chClosed := true }) ∧
    closeFn { onceDone := true, chClosed := true }
      = (some errAlreadyClosed, { onceDone := true, chClosed := true }) :=
  ⟨(C6_cancel_exactly_once 2).2.2.1, (C6_cancel_exactly_once 2).2.1 _ rfl⟩

/-! ### Single-item fetches -/

/-- C7: for every single-item fetch whose request is built, whose response has
a 2xx status and a body that is read and decoded without error to an item `g`:
if every field of `g` has its default value, `fetchGIF` returns no item and
the non-nil `errEmptyResponse`; if some field differs, it returns `g` and a
nil error. -/
theorem C7_blank_item_is_error (L : Lib) (c : Client) (n : Nat) (theURL : String)
    (httpReq : HTTPRequest) (res : HTTPResponse) (g : Giph)
    (hreq : L.NewRequest "GET" theURL = .ok httpReq)
    (hrt : c.rt n httpReq = .ok res)
    (hstatus : 200 ≤ res.StatusCode ∧ res.StatusCode ≤ 299)
    (hread : res.Body.2 = none)
    (hdecode : L.UnmarshalGiphWrap res.Body.1 = .ok { Giph := some g }) :
    (g = blankGiph → fetchGIF L c n theURL = .ret (none, some errEmptyResponse)) ∧
    (g ≠ blankGiph → fetchGIF L c n theURL = .ret (some g, none)) := by
  have hd : doHTTPReq c n httpReq = (res.Body.1, res.Header, none) := by
    simp [doHTTPReq, hrt, StatusOK, hstatus, hread]
  constructor
  · intro hg
    simp [fetchGIF, hreq, hd, hdecode, hg]
  · intro hg
    simp [fetchGIF, hreq, hd, hdecode, hg]

/-- C7 at the stub transport: `GIFByID("abc123")` against the body
`{"data":{}}` returns no item and `errEmptyResponse`; `GIFByID` of an id whose
body holds an `id` field returns that item and no error. -/
theorem C7_blank_item_is_error_witness :
    GIFByID stubLib stubClient 0 "abc123" = .ret (none, some errEmptyResponse) ∧
    GIFByID stubLib stubClient 0 "3ohze2UfcItWPUFqbm"
      = .ret (some { ID := "3ohze2UfcItWPUFqbm" }, none) :=
  ⟨(C7_blank_item_is_error stubLib stubClient 0 "https://api.giphy.com/v1/gifs/abc123?"
      ⟨"GET", "https://api.giphy.com/v1/gifs/abc123?"⟩
      { Status := "200 OK", StatusCode := 200, Body := ("\x7b\"data\":\x7b\x7d\x7d", none) }
      {} rfl rfl (by decide) rfl rfl).1 rfl,
   (C7_blank_item_is_error stubLib stubClient 0
      "https://api.giphy.com/v1/gifs/3ohze2UfcItWPUFqbm?"
      ⟨"GET", "https://api.giphy.com/v1/gifs/3ohze2UfcItWPUFqbm?"⟩
      { Status := "200 OK", StatusCode := 200,
        Body := ("\x7b\"data\":\x7b\"id\":\"3ohze2UfcItWPUFqbm\"\x7d\x7d", none) }
      { ID := "3ohze2UfcItWPUFqbm" } rfl rfl (by decide) rfl rfl).2 (by decide)⟩

/-! ### The HTTP round trip -/

/-- C8 (as amended): a transport error is returned unchanged, with no body
bytes; for a response returned without a transport error, `doHTTPReq` returns
a non-nil error exactly when the status code is outside 200..299 or reading
the body fails; outside 200..299 the error's message is the status line and
no body bytes are returned; inside 200..299 it returns the bytes that were
read together with the error of the read, nil when the read succeeded. -/
theorem C8_doHTTPReq_errors (c : Client) (n : Nat) (req : HTTPRequest) :
    (∀ err, c.rt n req = .error err → doHTTPReq c n req = ("", [], some err)) ∧
    (∀ res, c.rt n req = .ok res →
      ((doHTTPReq c n req).2.2 ≠ none ↔
        (¬ (200 ≤ res.StatusCode ∧ res.StatusCode ≤ 299) ∨ res.Body.2 ≠ none)) ∧
      (¬ (200 ≤ res.StatusCode ∧ res.StatusCode ≤ 299) →
        doHTTPReq c n req = ("", res.Header, some ⟨res.Status⟩)) ∧
      ((200 ≤ res.StatusCode ∧ res.StatusCode ≤ 299) →
        doHTTPReq c n req = (res.Body.1, res.Header, res.Body.2))) := by
  constructor
  · intro err h
    simp [doHTTPReq, h]
  · intro res h
    by_cases hs : 200 ≤ res.StatusCode ∧ res.StatusCode ≤ 299
    · have e : doHTTPReq c n req = (res.Body.1, res.Header, res.Body.2) := by
        simp [doHTTPReq, h, StatusOK, hs]
      refine ⟨?_, fun hn => absurd hs hn, fun _ => e⟩
      rw [e]
      simp [hs]
    · have e : doHTTPReq c n req = ("", res.Header, some ⟨res.Status⟩) := by
        simp [doHTTPReq, h, StatusOK, hs]
      refine ⟨?_, fun _ => e, fun hn => absurd hn hs⟩
      rw [e]
      simp [hs]

/-- C8 at the stub transport: a 400 response gives the status line as error
and no bytes; a 200 response gives its body and no error. -/
theorem C8_doHTTPReq_errors_witness :
    doHTTPReq stubClient 0 ⟨"GET", "https://api.giphy.com/v1/gifs/trending?"⟩
      = ("", [], some ⟨"400 Bad Request"⟩) ∧
    doHTTPReq stubClient 0 ⟨"GET", "https://api.giphy.com/v1/gifs/search?offset=0"⟩
      = ("twenty", [], none) :=
  ⟨((C8_doHTTPReq_errors stubClient 0 ⟨"GET", "https://api.giphy.com/v1/gifs/trending?"⟩).2
      { Status := "400 Bad Request", StatusCode := 400 } rfl).2.1 (by decide),
   ((C8_doHTTPReq_errors stubClient 0
      ⟨"GET", "https://api.giphy.com/v1/gifs/search?offset=0"⟩).2
      { Status := "200 OK", StatusCode := 200, Body := ("twenty", none) } rfl).2.2 (by decide)⟩

/-- C8 fails as stated: a response with status 200 whose body fails while it
is read makes `doHTTPReq` return a non-nil error, together with the bytes read
before the failure, although the status code is inside 200..299. -/
theorem C8_counterexample :
    brokenBodyClient.rt 0 ⟨"GET", "https://api.giphy.com/v1/gifs/random?"⟩
      = .ok { Status := "200 OK", StatusCode := 200,
              Body := ("\x7b\"da", some ⟨"unexpected EOF"⟩) } ∧
    ((200 : Int) ≤ 200 ∧ (200 : Int) ≤ 299) ∧
    doHTTPReq brokenBodyClient 0 ⟨"GET", "https://api.giphy.com/v1/gifs/random?"⟩
      = ("\x7b\"da", [], some ⟨"unexpected EOF"⟩) := by
  refine ⟨rfl, by decide, rfl⟩

/-! ### The throttle duration -/

/-- An `int64` result that is already in range is left as it is. -/
theorem wrapInt64_of_range (x : Int) (hlo : -2 ^ 63 ≤ x) (hhi : x < 2 ^ 63) :
    wrapInt64 x = x := by
  unfold wrapInt64
  rw [Int.emod_eq_of_lt (by omega) (by omega)]
  omega

/-- C9 (as amended): the throttle duration `fetch` resolves is zero when
`ThrottleDurationMs` is the `NoThrottle` sentinel (-1); exactly
`ThrottleDurationMs` milliseconds when `0 < ThrottleDurationMs <=
9223372036854`, the largest number of milliseconds a `time.Duration` holds;
the `int64` product `ThrottleDurationMs * 1000000` reduced modulo `2 ^ 64`
above that; and the default 150 milliseconds otherwise (0, and every negative
value but -1). -/
theorem C9_throttle_duration (req : Request) :
    throttleDuration req =
      if req.ThrottleDurationMs = -1 then 0
      else if 0 < req.ThrottleDurationMs ∧ req.ThrottleDurationMs ≤ 9223372036854 then
        req.ThrottleDurationMs * 1000000
      else if 9223372036854 < req.ThrottleDurationMs then
        (req.ThrottleDurationMs * 1000000 + 2 ^ 63) % 2 ^ 64 - 2 ^ 63
      else 150 * 1000000 := by
  unfold throttleDuration NoThrottle Millisecond
  by_cases h1 : req.ThrottleDurationMs = -1
  · simp [h1]
  · rw [if_neg h1, if_neg h1]
    by_cases h2 : 0 < req.ThrottleDurationMs
    · rw [if_pos h2]
      by_cases h3 : req.ThrottleDurationMs ≤ 9223372036854
      · rw [if_pos ⟨h2, h3⟩]
        exact wrapInt64_of_range _ (by omega) (by omega)
      · rw [if_neg (fun h => h3 h.2), if_pos (by omega)]
        rfl
    · rw [if_neg h2, if_neg (fun h => h2 h.1), if_neg (by omega)]

/-- C9 fails as stated: `ThrottleDurationMs = 9223372036855` is a positive
`int64`, and the duration resolved for it is negative, not 9223372036855
milliseconds. -/
theorem C9_counterexample :
    (0 : Int) < 9223372036855 ∧ (9223372036855 : Int) < 2 ^ 63 ∧
    throttleDuration { ThrottleDurationMs := 9223372036855 } = -9223372036854551616 ∧
    throttleDuration { ThrottleDurationMs := 9223372036855 } ≠ 9223372036855 * Millisecond := by
  refine ⟨by decide, by decide, by decide, by decide⟩

/-! ### A nil Request -/

/-- C10: a nil Request is the all-defaults Request: for every route, transport,
library behaviour and cancellation timing, `fetch(nil, route)` returns what
`fetch(&Request{}, route)` returns, a non-nil pager and a nil error, whose
stream is the one produced from the all-defaults Request (same wire
parameters, throttle duration, page limit and pages); and `randomGIF(nil,
route)` builds the same URL and returns the same result as
`randomGIF(&Request{}, route)`. -/
theorem C10_nil_request_is_default (L : Lib) (c : Client) (cancelSeen : Nat → Int → Bool)
    (route : String) (n : Nat) :
    fetch L c cancelSeen none route = fetch L c cancelSeen (some {}) route ∧
    (∃ rp, fetch L c cancelSeen none route = (some rp, none) ∧
      rp.Pages = fun fuel => producer L c cancelSeen {} route fuel {}) ∧
    randomGIFURL L c n none route = randomGIFURL L c n (some {}) route ∧
    randomGIF L c n none route = randomGIF L c n (some {}) route :=
  ⟨rfl, ⟨_, rfl, rfl⟩, rfl, rfl⟩

/-! ### Offsets and wire parameters -/

section Params

variable (L : Lib) (c : Client) (cancelSeen : Nat → Int → Bool) (req : Request)
  (route : String)

/-- The wire parameters of the first attempt of a run carry the offset the
run starts with. -/
theorem producer_pagers_head (fuel : Nat) (s : LoopState) (p : pager)
    (h : (producer L c cancelSeen req route fuel s).pagers[0]? = some p) :
    p = fetchPager req s.offset := by
  cases fuel with
  | zero => simp [producer] at h
  | succ fuel =>
    rcases producer_cases L c cancelSeen req route fuel s with
      ⟨err, hf, hp⟩ | ⟨res, hf, h0, hp⟩ | ⟨res, hf, h0, hstop, hp⟩ | ⟨res, hf, h0, hx, hc, hp⟩
    all_goals
      rw [hp] at h
      simp at h
      exact h.symm

/-- An attempt after the first follows an attempt that succeeded, and its
wire parameters carry the offset advanced from that attempt's response. -/
theorem producer_pagers_step (fuel : Nat) (s : LoopState) (k : Nat) (q : pager)
    (h : (producer L c cancelSeen req route fuel s).pagers[k + 1]? = some q) :
    ∃ p res, (producer L c cancelSeen req route fuel s).pagers[k]? = some p ∧
      fetchPage L c route (s.attempt + k) p = .ok res ∧
      q = fetchPager req (nextOffset p.Offset res) := by
  induction fuel generalizing s k with
  | zero => simp [producer] at h
  | succ fuel ih =>
    rcases producer_cases L c cancelSeen req route fuel s with
      ⟨err, hf, hp⟩ | ⟨res, hf, h0, hp⟩ | ⟨res, hf, h0, hstop, hp⟩ | ⟨res, hf, h0, hx, hc, hp⟩
    · rw [hp] at h; simp at h
    · rw [hp] at h; simp at h
    · rw [hp] at h; simp at h
    · rw [hp] at h ⊢
      simp only [List.getElem?_cons_succ] at h
      cases k with
      | zero =>
        have hq := producer_pagers_head L c cancelSeen req route fuel _ q h
        exact ⟨fetchPager req s.offset, res, by simp, by simpa using hf, hq⟩
      | succ k =>
        obtain ⟨p, res1, h1, h2, h3⟩ := ih _ k h
        refine ⟨p, res1, by simpa using h1, ?_, h3⟩
        have e : s.attempt + (k + 1) = s.attempt + 1 + k := by omega
        rw [e]
        exact h2

/-- Every attempt's wire parameters are those `fetch` builds from the Request
and an offset. -/
theorem producer_pagers_form (fuel : Nat) (s : LoopState) (p : pager)
    (h : p ∈ (producer L c cancelSeen req route fuel s).pagers) :
    p = fetchPager req p.Offset := by
  induction fuel generalizing s with
  | zero => simp [producer] at h
  | succ fuel ih =>
    rcases producer_cases L c cancelSeen req route fuel s with
      ⟨err, hf, hp⟩ | ⟨res, hf, h0, hp⟩ | ⟨res, hf, h0, hstop, hp⟩ | ⟨res, hf, h0, hx, hc, hp⟩
    · rw [hp] at h; simp at h; subst h; rfl
    · rw [hp] at h; simp at h; subst h; rfl
    · rw [hp] at h; simp at h; subst h; rfl
    · rw [hp] at h
      simp only [List.mem_cons] at h
      rcases h with h | h
      · subst h; rfl
      · exact ih _ h

/-- Advancing a reduced running sum by a response's count. -/
theorem nextOffset_mod (a : Nat) (res : Response) :
    nextOffset (a % u64) res = (a + reportedCount res) % u64 := by
  unfold nextOffset reportedCount
  cases res.Pagination with
  | none => simp
  | some pg => simp [Nat.mod_add_mod]

/-- The offset of attempt `k` of a stream is the sum, in `uint64` arithmetic,
of the counts reported in answer to the attempts before it. -/
theorem stream_offsets (fuel : Nat) (k : Nat) (p : pager)
    (h : (producer L c cancelSeen req route fuel {}).pagers[k]? = some p) :
    p.Offset = ((List.range k).map
      (servedCount L c route (producer L c cancelSeen req route fuel {}).pagers)).sum % u64 := by
  induction k generalizing p with
  | zero =>
    rw [producer_pagers_head L c cancelSeen req route fuel {} p h]
    rfl
  | succ k ih =>
    obtain ⟨p0, res, h1, h2, h3⟩ := producer_pagers_step L c cancelSeen req route fuel {} k p h
    have hk : servedCount L c route (producer L c cancelSeen req route fuel {}).pagers k
        = reportedCount res := by
      have h2' : fetchPage L c route k p0 = .ok res := by simpa using h2
      simp [servedCount, h1, h2']
    rw [h3, List.range_succ, List.map_append, List.sum_append, ih p0 h1, nextOffset_mod]
    simp [fetchPager, hk]

end Params

/-- C11: in every stream produced by `fetch`, for a nil or a non-nil Request,
the wire parameters of the first fetch carry offset 0; the fetch for page
`k + 1` is made only after the fetch for page `k` succeeded, and its offset is
the offset of page `k` plus the `Pagination.Count` of page `k`'s response
reduced modulo `2 ^ 64`, or the offset of page `k` unchanged when that
response has no pagination metadata; so the offset of page `k` is the sum,
modulo `2 ^ 64`, of the counts reported for pages 0..k-1. -/
theorem C11_offsets_accumulate (L : Lib) (c : Client) (cancelSeen : Nat → Int → Bool)
    (req : Option Request) (route : String) :
    ∃ rp, fetch L c cancelSeen req route = (some rp, none) ∧
      (∀ fuel p, (rp.Pages fuel).pagers[0]? = some p → p.Offset = 0) ∧
      (∀ fuel k q, (rp.Pages fuel).pagers[k + 1]? = some q →
        ∃ p res, (rp.Pages fuel).pagers[k]? = some p ∧
          fetchPage L c route k p = .ok res ∧
          q.Offset = match res.Pagination with
            | some pg => (p.Offset + pg.Count) % u64
            | none => p.Offset) ∧
      (∀ fuel k p, (rp.Pages fuel).pagers[k]? = some p →
        p.Offset = ((List.range k).map
          (servedCount L c route (rp.Pages fuel).pagers)).sum % u64) := by
  have key : ∀ r : Request,
      (∀ fuel p, (producer L c cancelSeen r route fuel {}).pagers[0]? = some p →
        p.Offset = 0) ∧
      (∀ fuel k q, (producer L c cancelSeen r route fuel {}).pagers[k + 1]? = some q →
        ∃ p res, (producer L c cancelSeen r route fuel {}).pagers[k]? = some p ∧
          fetchPage L c route k p = .ok res ∧
          q.Offset = match res.Pagination with
            | some pg => (p.Offset + pg.Count) % u64
            | none => p.Offset) ∧
      (∀ fuel k p, (producer L c cancelSeen r route fuel {}).pagers[k]? = some p →
        p.Offset = ((List.range k).map
          (servedCount L c route (producer L c cancelSeen r route fuel {}).pagers)).sum
            % u64) := by
    intro r
    refine ⟨?_, ?_, ?_⟩
    · intro fuel p h
      rw [producer_pagers_head L c cancelSeen r route fuel {} p h]
      rfl
    · intro fuel k q h
      obtain ⟨p, res, h1, h2, h3⟩ := producer_pagers_step L c cancelSeen r route fuel {} k q h
      refine ⟨p, res, h1, by simpa using h2, ?_⟩
      rw [h3]
      rfl
    · intro fuel k p h
      exact stream_offsets L c cancelSeen r route fuel k p h
  cases req with
  | none => exact ⟨_, rfl, key {}⟩
  | some r => exact ⟨_, rfl, key r⟩

/-- C11 at the stub transport, which reports a count of 20 with each page:
the fetch at index 3 is sent with offset 60, the sum of the three counts
reported before it, and the fetch at index 4 with that offset advanced by the
count of page 3. -/
theorem C11_offsets_accumulate_witness :
    ∃ rp, fetch stubLib stubClient neverCancel (some {}) "/gifs/search" = (some rp, none) ∧
      (rp.Pages 9).pagers[3]? = some (fetchPager {} 60) ∧
      ((List.range 3).map
        (servedCount stubLib stubClient "/gifs/search" (rp.Pages 9).pagers)).sum % u64 = 60 ∧
      (rp.Pages 9).pagers[4]? = some (fetchPager {} 80) ∧
      (∃ p res, (rp.Pages 9).pagers[3]? = some p ∧
          fetchPage stubLib stubClient "/gifs/search" 3 p = .ok res ∧
          (80 : Nat) = match res.Pagination with
            | some pg => (p.Offset + pg.Count) % u64
            | none => p.Offset) := by
  obtain ⟨rp, h, -, h2, h3⟩ :=
    C11_offsets_accumulate stubLib stubClient neverCancel (some {}) "/gifs/search"
  have e := fetch_pager_eq h
  have hp3 : (rp.Pages 9).pagers[3]? = some (fetchPager {} 60) := by subst e; rfl
  have hp4 : (rp.Pages 9).pagers[4]? = some (fetchPager {} 80) := by subst e; rfl
  exact ⟨rp, h, hp3, (h3 9 3 _ hp3).symm, hp4, h2 9 3 _ hp4⟩

/-- C12 (as amended): for every Request and every page attempt of a stream
produced by `fetch`, the wire parameters carry the Request's free-text query,
rating filter, format hint, language hint, sort order and per-page limit
unchanged, together with the running offset (the sum modulo `2 ^ 64` of the
counts reported so far), and leave the tag parameter empty; for the
single-item random routes the wire parameters carry the Request's tag, rating
and format unchanged and nothing else, and the URL is built from them. -/
theorem C12_wire_params (L : Lib) (c : Client) (cancelSeen : Nat → Int → Bool)
    (req : Request) (route : String) (n : Nat) :
    (∃ rp, fetch L c cancelSeen (some req) route = (some rp, none) ∧
      ∀ (fuel k : Nat) (p : pager), (rp.Pages fuel).pagers[k]? = some p →
        p = { Query := req.Query
              Limit := req.LimitPerPage
              Rating := req.Rating
              Format := req.Format
              Offset := ((List.range k).map
                (servedCount L c route (rp.Pages fuel).pagers)).sum % u64
              Language := req.Language
              SortBy := req.SortBy
              Tag := "" }) ∧
    randomGIFURL L c n (some req) route =
      (match L.ToURLValues { Rating := req.Rating, Format := req.Format, Tag := req.Tag } with
        | .error err => .error err
        | .ok qv => .ok (baseURL ++ route ++ "?" ++ L.Encode (qv.Set "api_key" (c.apiKey n)))) := by
  refine ⟨⟨_, rfl, ?_⟩, rfl⟩
  intro fuel k p h
  have h1 := producer_pagers_form L c cancelSeen req route fuel {} p (List.getElem?_mem h)
  have h2 := stream_offsets L c cancelSeen req route fuel k p h
  calc p = fetchPager req p.Offset := h1
    _ = fetchPager req (((List.range k).map
          (servedCount L c route (producer L c cancelSeen req route fuel {}).pagers)).sum
            % u64) := by rw [h2]
    _ = _ := rfl

/-- C12 at the stub transport, for a Request with a query and a tag: the wire
parameters of the second page carry the query and the offset 20, and an empty
tag. -/
theorem C12_wire_params_witness :
    ∃ rp, fetch stubLib stubClient neverCancel
        (some { Query := "Milly Rock", Tag := "netflix", MaxPageNumber := 4 }) "/gifs/search"
          = (some rp, none) ∧
      (rp.Pages 4).pagers[1]? = some { Query := "Milly Rock", Offset := 20, Tag := "" } := by
  obtain ⟨⟨rp, h, h1⟩, -⟩ := C12_wire_params stubLib stubClient neverCancel
    { Query := "Milly Rock", Tag := "netflix", MaxPageNumber := 4 } "/gifs/search" 0
  have e := fetch_pager_eq h
  have hp : (rp.Pages 4).pagers[1]?
      = some (fetchPager { Query := "Milly Rock", Tag := "netflix", MaxPageNumber := 4 } 20) := by
    subst e; rfl
  have h2 := h1 4 1 _ hp
  refine ⟨rp, h, ?_⟩
  rw [hp, h2]
  subst e
  rfl

/-- C12 fails as stated: for a Request whose tag filter is "netflix", the wire
parameters `fetch` builds for the first page have an empty tag. -/
theorem C12_counterexample :
    ∃ rp, fetch stubLib stubClient neverCancel (some { Tag := "netflix" }) "/gifs/search"
        = (some rp, none) ∧
      (rp.Pages 1).pagers.map pager.Tag = [""] ∧
      (rp.Pages 1).pagers.map pager.Tag ≠ ["netflix"] := by
  refine ⟨_, rfl, by decide, by decide⟩

/-- C13 fails on the code: against a 200 response whose body is `{}`, or
`{"data":null}`, both valid JSON for the single-item wrapper, `GIFByID` and
`RandomGIF` neither return an item nor an error: `fetchGIF` dereferences the
nil item pointer and panics. -/
theorem C13_nil_data_panics :
    GIFByID nullDataLib nullDataClient 0 "abc123"
      = .panics "invalid memory address or nil pointer dereference" ∧
    GIFByID nullDataLib nullDataClient 0 "3ohze2UfcItWPUFqbm"
      = .panics "invalid memory address or nil pointer dereference" ∧
    RandomGIF nullDataLib nullDataClient 0 none
      = .panics "invalid memory address or nil pointer dereference" := by
  refine ⟨rfl, rfl, rfl⟩

end Giphy
